import Mathlib

/-!
Verification of the PicoArt v42 API layer: a shallow embedding of the
request handlers in `src/api/flux-transfer-sdxl.js` (which contains both the
SDXL-enabled handler and the refactored FLUX-only handler), the test handler
in `src/api/sdxl-lightning-test.js`, and the middleware in `src/api/index.js`,
together with a model of the outbound-request admission gate (rate limiter).
-/

namespace PicoArt

/-- A JavaScript value, as far as the handlers inspect one: `undefined`,
`null`, booleans, numbers (modelled as rationals), strings, and arrays. -/
inductive JSVal where
  | undef
  | null
  | bool (b : Bool)
  | num (q : ℚ)
  | str (s : String)
  | arr (l : List JSVal)

/-- JavaScript truthiness, used by `if (!image || !basePrompt)`,
`errorData.detail || ...`, `errorData.retry_after || 10` and `if (useSDXL)`. -/
def JSVal.truthy : JSVal → Bool
  | .undef => false
  | .null => false
  | .bool b => b
  | .num q => decide (q ≠ 0)
  | .str s => decide (s ≠ "")
  | .arr _ => true

/-- String coercion applied by `new Error(v)` to a value. Only stated for the
value shapes the handlers actually pass (truthy detail strings). -/
def JSVal.jsString : JSVal → String
  | .undef => "undefined"
  | .null => "null"
  | .bool b => if b then "true" else "false"
  | .num q => toString q
  | .str s => s
  | .arr _ => ""

/-- A JSON object as an ordered list of key/value bindings; in an object
literal with a spread, later bindings win, so `getF` reads from the right. -/
abbrev Obj : Type := List (String × JSVal)

/-- First-match lookup in a binding list. -/
def lookupF : List (String × JSVal) → String → JSVal
  | [], _ => .undef
  | (k', v) :: t, k => if k' = k then v else lookupF t k

/-- Field access on an object: the LAST binding of a key wins, matching the
semantics of a JavaScript object literal built with spreads. -/
def getF (o : Obj) (k : String) : JSVal := lookupF o.reverse k

/-- Whether a binding list contains a key. -/
def hasKey (l : List (String × JSVal)) (k : String) : Bool :=
  l.any (fun kv => kv.1 == k)

/-- HTTP method of an inbound request. -/
inductive Method where
  | OPTIONS
  | POST
  | other (s : String)
deriving DecidableEq

/-- The request body fields the handlers destructure:
`const { image, prompt: basePrompt, style, useSDXL = true } = req.body`.
A field that is absent from the JSON body is `JSVal.undef`. -/
structure ReqBody where
  image : JSVal
  prompt : JSVal
  style : JSVal
  useSDXL : JSVal

/-- An inbound HTTP request. -/
structure Request where
  method : Method
  body : ReqBody

/-- The value of `useSDXL` after destructuring with default `true`: the
default applies exactly when the field is `undefined`. -/
def useSDXLVal (b : ReqBody) : JSVal :=
  match b.useSDXL with
  | .undef => .bool true
  | v => v

/-- Body of an HTTP response produced by a handler. -/
inductive RespBody where
  | empty
  | jsonObj (o : Obj)

/-- An HTTP response: status code, headers set via `res.setHeader`, body. -/
structure HttpResponse where
  status : Nat
  headers : List (String × String)
  body : RespBody

/-- The three CORS headers set at the top of `handler`,
`testSDXLLightning` and the refactored handler. -/
def corsHeaders : List (String × String) :=
  [("Access-Control-Allow-Origin", "*"),
   ("Access-Control-Allow-Methods", "POST, OPTIONS"),
   ("Access-Control-Allow-Headers", "Content-Type")]

/-- A thrown JavaScript `Error` as the handlers build and inspect one:
`message`, the ad-hoc fields `status` and `retry_after` attached in the
429 branch (absent otherwise), and the `stack` every `Error` carries. -/
structure JsError where
  message : String
  status : Option Nat
  retry_after : Option JSVal
  stack : String

/-- The text body of an upstream HTTP response, as seen by `JSON.parse` /
`response.json()`: either valid JSON (an object) or malformed text. -/
inductive BodyText where
  | json (o : Obj)
  | malformed (s : String)

/-- An upstream (Replicate) HTTP response: `response.ok`, `response.status`,
and the body text. -/
structure UpstreamResponse where
  ok : Bool
  status : Nat
  body : BodyText

/-- The message of the `SyntaxError` thrown by `JSON.parse` on malformed
input. The exact platform text is irrelevant to the claims; what matters is
that it is a parse error message determined by the bad text, not the
rate-limit detail, and that no `status`/`retry_after` fields are attached. -/
def jsonParseErrorMessage (s : String) : String :=
  "Unexpected token in JSON: " ++ s

/-- The error thrown by `JSON.parse`: a plain `SyntaxError`, with no
`status` or `retry_after` fields attached. -/
def jsonParseError (s : String) : JsError :=
  { message := jsonParseErrorMessage s, status := none, retry_after := none,
    stack := "SyntaxError" }

/-- The rate-limit error built in the `response.status === 429` branch:
a new Error whose message is the detail field or else Rate limited, with
`error.status = 429`
and `error.retry_after = errorData.retry_after || 10`. -/
def rateLimit429Error (o : Obj) : JsError :=
  { message :=
      if (getF o "detail").truthy then (getF o "detail").jsString
      else "Rate limited",
    status := some 429,
    retry_after :=
      some (if (getF o "retry_after").truthy then getF o "retry_after"
            else .num 10),
    stack := "Error" }

/-- The body of `callSDXLAPI` after the fetch returns (flux-transfer-sdxl.js
lines 166-184): on `ok`, parse and return the JSON; on 429, `JSON.parse` the
text (which itself throws on malformed text) and throw the rate-limit error;
otherwise throw `SDXL API error: <status>`. -/
def callSDXLAPI_result (r : UpstreamResponse) : Except JsError Obj :=
  if r.ok then
    match r.body with
    | .json o => .ok o
    | .malformed s => .error (jsonParseError s)
  else if r.status = 429 then
    match r.body with
    | .json o => .error (rateLimit429Error o)
    | .malformed s => .error (jsonParseError s)
  else
    .error { message := "SDXL API error: " ++ toString r.status,
             status := none, retry_after := none, stack := "Error" }

/-- The body of `callFluxAPI` after the fetch returns (flux-transfer-sdxl.js
lines 216-234): identical error handling, with message prefix `FLUX API
error`. -/
def callFluxAPI_result (r : UpstreamResponse) : Except JsError Obj :=
  if r.ok then
    match r.body with
    | .json o => .ok o
    | .malformed s => .error (jsonParseError s)
  else if r.status = 429 then
    match r.body with
    | .json o => .error (rateLimit429Error o)
    | .malformed s => .error (jsonParseError s)
  else
    .error { message := "FLUX API error: " ++ toString r.status,
             status := none, retry_after := none, stack := "Error" }

/-- The queued task body of `testSDXLLightning` (sdxl-lightning-test.js
lines 62-77): same response handling as `callSDXLAPI`. -/
def testSDXLLightning_result (r : UpstreamResponse) : Except JsError Obj :=
  if r.ok then
    match r.body with
    | .json o => .ok o
    | .malformed s => .error (jsonParseError s)
  else if r.status = 429 then
    match r.body with
    | .json o => .error (rateLimit429Error o)
    | .malformed s => .error (jsonParseError s)
  else
    .error { message := "SDXL API error: " ++ toString r.status,
             status := none, retry_after := none, stack := "Error" }

/-- The fetch body of `callReplicateAPI` in the refactored handler
(flux-transfer-sdxl.js lines 441-450): NO 429 special case, every non-ok
status throws `FLUX API error: <status>`. -/
def callReplicateAPI_result (r : UpstreamResponse) : Except JsError Obj :=
  if r.ok then
    match r.body with
    | .json o => .ok o
    | .malformed s => .error (jsonParseError s)
  else
    .error { message := "FLUX API error: " ++ toString r.status,
             status := none, retry_after := none, stack := "Error" }

/-- Result of `selectArtistWithAI` (external collaborator, services are out
of src): an artist label, a method string and details. -/
structure ArtistSelection where
  artist : JSVal
  method : JSVal
  details : JSVal

/-- Outputs of the external collaborators the handler delegates to
(prompt building, SDXL prompt optimization, control strength); they are
pure data transforms outside the core and are taken as inputs here. -/
structure Collab where
  sel : ArtistSelection
  sdxlPrompt : JSVal
  negPrompt : JSVal
  fluxPrompt : JSVal
  controlStrength : JSVal

/-- The JSON payload `callSDXLAPI` serializes (flux-transfer-sdxl.js
lines 149-162), the `input` object. -/
def sdxlPayload (image prompt negPrompt : JSVal) : Obj :=
  [("prompt", prompt),
   ("negative_prompt", negPrompt),
   ("image", image),
   ("num_inference_steps", .num 4),
   ("guidance_scale", .num 0),
   ("scheduler", .str "K_EULER"),
   ("num_outputs", .num 1),
   ("disable_safety_checker", .bool false),
   ("output_format", .str "jpg"),
   ("output_quality", .num 90)]

/-- The JSON payload `callFluxAPI` serializes (flux-transfer-sdxl.js
lines 202-213), the `input` object. -/
def fluxPayload (image prompt controlStrength : JSVal) : Obj :=
  [("control_image", image),
   ("prompt", prompt),
   ("num_inference_steps", .num 24),
   ("guidance", .num 12),
   ("control_strength", controlStrength),
   ("output_format", .str "jpg"),
   ("output_quality", .num 90)]

/-- The 500 response built by the `catch` block of all three handlers:
`{ error: error.message, stack: dev ? error.stack : undefined }`
(an `undefined` field is dropped by JSON serialization). -/
def handlerErrorResponse (e : JsError) (dev : Bool) : HttpResponse :=
  { status := 500,
    headers := corsHeaders,
    body := .jsonObj
      ([("error", .str e.message)] ++
       (if dev then [("stack", .str e.stack)] else [])) }

/-- What a handler run produced: the HTTP response, and the payload of the
outbound upstream call if one was made. -/
structure HandlerOutcome where
  response : HttpResponse
  upstreamPayload : Option Obj

/-- The main handler of flux-transfer-sdxl.js (lines 26-133), with the
external collaborators and the upstream response supplied as inputs:
CORS headers, OPTIONS and non-POST short circuits, required-field
validation, variant selection on `useSDXL` (default `true`), upstream call,
and the 200 merge or the catch-all 500. -/
def handler (req : Request) (c : Collab) (up : UpstreamResponse)
    (dev : Bool) : HandlerOutcome :=
  match req.method with
  | .OPTIONS => ⟨⟨200, corsHeaders, .empty⟩, none⟩
  | .other _ =>
      ⟨⟨405, corsHeaders, .jsonObj [("error", .str "Method not allowed")]⟩,
       none⟩
  | .POST =>
    let b := req.body
    if !b.image.truthy || !b.prompt.truthy then
      ⟨⟨400, corsHeaders, .jsonObj
          [("error", .str "Missing required fields"),
           ("required", .arr [.str "image", .str "prompt"])]⟩, none⟩
    else
      let useS := useSDXLVal b
      let modelType := if useS.truthy then "SDXL Lightning" else "FLUX Depth"
      let cost : ℚ := if useS.truthy then 11/1000 else 4/100
      let payload :=
        if useS.truthy then sdxlPayload b.image c.sdxlPrompt c.negPrompt
        else fluxPayload b.image c.fluxPrompt c.controlStrength
      let result :=
        if useS.truthy then callSDXLAPI_result up else callFluxAPI_result up
      match result with
      | .ok data =>
          ⟨⟨200, corsHeaders, .jsonObj
              (data ++
               [("selected_artist", c.sel.artist),
                ("selection_method", c.sel.method),
                ("selection_details", c.sel.details),
                ("model_used", .str modelType),
                ("cost", .num cost)])⟩, some payload⟩
      | .error e => ⟨handlerErrorResponse e dev, some payload⟩

/-- The refactored handler (flux-transfer-sdxl.js lines 292-382): always
FLUX via `callReplicateAPI`, and the 200 response merges only the three
selection fields. -/
def refactoredHandler (req : Request) (c : Collab) (up : UpstreamResponse)
    (dev : Bool) : HandlerOutcome :=
  match req.method with
  | .OPTIONS => ⟨⟨200, corsHeaders, .empty⟩, none⟩
  | .other _ =>
      ⟨⟨405, corsHeaders, .jsonObj [("error", .str "Method not allowed")]⟩,
       none⟩
  | .POST =>
    let b := req.body
    if !b.image.truthy || !b.prompt.truthy then
      ⟨⟨400, corsHeaders, .jsonObj
          [("error", .str "Missing required fields"),
           ("required", .arr [.str "image", .str "prompt"])]⟩, none⟩
    else
      let payload := fluxPayload b.image c.fluxPrompt c.controlStrength
      match callReplicateAPI_result up with
      | .ok data =>
          ⟨⟨200, corsHeaders, .jsonObj
              (data ++
               [("selected_artist", c.sel.artist),
                ("selection_method", c.sel.method),
                ("selection_details", c.sel.details)])⟩, some payload⟩
      | .error e => ⟨handlerErrorResponse e dev, some payload⟩

/-- The headers set by the `withCORS` middleware (index.js lines 48-61):
note the allowed methods include GET. -/
def withCORSHeaders : List (String × String) :=
  [("Access-Control-Allow-Origin", "*"),
   ("Access-Control-Allow-Methods", "GET, POST, OPTIONS"),
   ("Access-Control-Allow-Headers", "Content-Type")]

/-- The `withCORS` middleware (index.js lines 48-61): its three `setHeader`
calls run first; it answers OPTIONS itself with 200 and an empty body,
otherwise it delegates to the wrapped handler. `res.setHeader` overwrites
per key, so a header the wrapped handler sets afterwards wins; under the
first-match `headerVal` lookup this places the inner headers before the
middleware defaults. -/
def withCORS (inner : Request → HttpResponse) (req : Request) :
    HttpResponse :=
  if req.method = .OPTIONS then ⟨200, withCORSHeaders, .empty⟩
  else
    let r := inner req
    ⟨r.status, r.headers ++ withCORSHeaders, r.body⟩

/-- The 500 response built by the `catch` of `withErrorHandling` (index.js
lines 64-78): fixed error text `Internal server error`; the real message
and the stack appear only in development mode. -/
def withErrorHandling_catch (e : JsError) (dev : Bool) : HttpResponse :=
  { status := 500,
    headers := [],
    body := .jsonObj
      ([("error", .str "Internal server error")] ++
       (if dev then [("message", .str e.message)] else []) ++
       (if dev then [("stack", .str e.stack)] else [])) }

/-- Field access on a response body (`JSVal.undef` when absent or when the
body is empty). -/
def respField (r : HttpResponse) (k : String) : JSVal :=
  match r.body with
  | .empty => .undef
  | .jsonObj o => getF o k

/-- Whether the serialized response body mentions a string as the value of
some field (used to express that a response carries an error message). -/
def bodyMentions (r : HttpResponse) (m : String) : Bool :=
  match r.body with
  | .empty => false
  | .jsonObj o => o.any (fun kv =>
      match kv.2 with
      | .str s => s == m
      | _ => false)

/-- First-match lookup among response headers. -/
def headerVal : List (String × String) → String → Option String
  | [], _ => none
  | (k', v) :: t, k => if k' = k then some v else headerVal t k

-- ========================================
-- Admission gate (rate limiter) model
-- ========================================

/-- An observable event of the admission gate: task `i` starts executing
against the upstream API, or task `i` settles (success or failure). -/
inductive GateEvent where
  | start (i : Nat)
  | finish (i : Nat)
deriving DecidableEq

/-- Modelled from the spec: the state of the admission gate (the
`rateLimiter` of `services/rateLimiter.js`, which is not under `src/`; spec
section 4.1): the FIFO waiting list of submitted task ids, the ids currently
in flight, and the trace of start/finish events observed so far. -/
structure GateState where
  waiting : List Nat
  running : List Nat
  trace : List GateEvent
deriving DecidableEq

/-- The list `[k, k+1, ..., k+n-1]`: the ids still waiting when the first
`k` submissions have been admitted. -/
def rangeFrom (k : Nat) : Nat → List Nat
  | 0 => []
  | n + 1 => k :: rangeFrom (k + 1) n

/-- Modelled from the spec: initial gate state with tasks `0 .. n-1`
submitted in that order and nothing started. -/
def initGate (n : Nat) : GateState := ⟨rangeFrom 0 n, [], []⟩

/-- Modelled from the spec (section 4.1): one transition of the admission
gate with concurrency limit `limit`. The head of the waiting list may start
when the in-flight count is below the limit; an in-flight task may settle
(success or failure) at any time. -/
inductive GateStep (limit : Nat) : GateState → GateState → Prop
  | start (i : Nat) (w r : List Nat) (tr : List GateEvent)
      (h : r.length < limit) :
      GateStep limit ⟨i :: w, r, tr⟩ ⟨w, r ++ [i], tr ++ [.start i]⟩
  | finish (i : Nat) (w r : List Nat) (tr : List GateEvent)
      (h : i ∈ r) :
      GateStep limit ⟨w, r, tr⟩ ⟨w, r.erase i, tr ++ [.finish i]⟩

/-- Reflexive-transitive closure of gate transitions. -/
inductive GateReach (limit : Nat) : GateState → GateState → Prop
  | refl (s : GateState) : GateReach limit s s
  | tail {s t u : GateState} : GateReach limit s t → GateStep limit t u →
      GateReach limit s u

/-- The fully serialized event trace of the first `k` tasks: each starts
and then settles before the next starts. -/
def doneTrace : Nat → List GateEvent
  | 0 => []
  | k + 1 => doneTrace k ++ [.start k, .finish k]

/-- A trace is serial-FIFO when, whenever a later-submitted task `j` has
started, every earlier task `i < j` both started and settled strictly
before that start. -/
def SerialFifoTrace (tr : List GateEvent) : Prop :=
  ∀ i j : Nat, i < j → GateEvent.start j ∈ tr →
    GateEvent.start i ∈ tr.takeWhile (fun e => e != GateEvent.start j) ∧
    GateEvent.finish i ∈ tr.takeWhile (fun e => e != GateEvent.start j)

/-- Reachability invariant of the gate at concurrency limit 1: either the
gate is idle with the first `k` tasks fully settled, or task `k` alone is
in flight. -/
def GateInv (n : Nat) (s : GateState) : Prop :=
  (∃ k, k ≤ n ∧ s.waiting = rangeFrom k (n - k) ∧ s.running = [] ∧
      s.trace = doneTrace k) ∨
  (∃ k, k < n ∧ s.waiting = rangeFrom (k + 1) (n - (k + 1)) ∧
      s.running = [k] ∧ s.trace = doneTrace k ++ [GateEvent.start k])

-- ========================================
-- Claim-level properties
-- ========================================

/-- The variant-selection contract of the handler: `useSDXL:false` sends the
FLUX payload (24 steps, guidance 12); `useSDXL:true` or omitted sends the
SDXL Lightning payload (4 steps, guidance_scale 0). -/
def VariantSelection (req : Request) (c : Collab) (up : UpstreamResponse)
    (dev : Bool) : Prop :=
  (req.body.useSDXL = .bool false →
    (handler req c up dev).upstreamPayload =
      some (fluxPayload req.body.image c.fluxPrompt c.controlStrength) ∧
    getF (fluxPayload req.body.image c.fluxPrompt c.controlStrength)
      "num_inference_steps" = .num 24 ∧
    getF (fluxPayload req.body.image c.fluxPrompt c.controlStrength)
      "guidance" = .num 12) ∧
  ((req.body.useSDXL = .bool true ∨ req.body.useSDXL = .undef) →
    (handler req c up dev).upstreamPayload =
      some (sdxlPayload req.body.image c.sdxlPrompt c.negPrompt) ∧
    getF (sdxlPayload req.body.image c.sdxlPrompt c.negPrompt)
      "num_inference_steps" = .num 4 ∧
    getF (sdxlPayload req.body.image c.sdxlPrompt c.negPrompt)
      "guidance_scale" = .num 0)

/-- The five metadata keys the SDXL-enabled handler merges on success. -/
def metaKeys5 : List String :=
  ["selected_artist", "selection_method", "selection_details",
   "model_used", "cost"]

/-- The three metadata keys the refactored handler merges on success. -/
def metaKeys3 : List String :=
  ["selected_artist", "selection_method", "selection_details"]

/-- Outside the given keys, the response carries exactly the fields of the
upstream result object (the merge preserves the upstream fields). -/
def PreservesOutside (r : HttpResponse) (data : Obj)
    (keys : List String) : Prop :=
  ∀ k, k ∉ keys → respField r k = getF data k

/-- The 429 default contract of an upstream call: a falsy `retry_after` in
the parsed body yields the default 10, and a falsy `detail` yields the
default message `Rate limited`. -/
def Default429 (f : UpstreamResponse → Except JsError Obj)
    (r : UpstreamResponse) (o : Obj) : Prop :=
  ((getF o "retry_after").truthy = false →
    ∃ e, f r = .error e ∧ e.retry_after = some (.num 10)) ∧
  ((getF o "detail").truthy = false →
    ∃ e, f r = .error e ∧ e.message = "Rate limited")

/-- The success contract of the SDXL-enabled handler: 200, all five
metadata fields present with the collaborator values and the model name
and cost of the chosen variant, and every other field taken from the
upstream result. -/
def MergesFiveMeta (r : HttpResponse) (data : Obj)
    (sel : ArtistSelection) (modelType : String) (cost : ℚ) : Prop :=
  r.status = 200 ∧
  respField r "selected_artist" = sel.artist ∧
  respField r "selection_method" = sel.method ∧
  respField r "selection_details" = sel.details ∧
  respField r "model_used" = .str modelType ∧
  respField r "cost" = .num cost ∧
  PreservesOutside r data metaKeys5

/-- The success contract of the refactored handler: 200, the three
selection fields present, every other field taken from the upstream
result. -/
def MergesThreeMeta (r : HttpResponse) (data : Obj)
    (sel : ArtistSelection) : Prop :=
  r.status = 200 ∧
  respField r "selected_artist" = sel.artist ∧
  respField r "selection_method" = sel.method ∧
  respField r "selection_details" = sel.details ∧
  PreservesOutside r data metaKeys3

/-- Lookup with fallback: the first header list wins per key, the second
supplies the keys the first does not set. This is the observable effect of
repeated `res.setHeader` calls, the later call winning per key. -/
def FallbackLookup (resp inner defaults : List (String × String)) : Prop :=
  ∀ k, headerVal resp k =
    match headerVal inner k with
    | some v => some v
    | none => headerVal defaults k

/-- Header semantics of the withCORS middleware: an OPTIONS preflight is
answered with exactly the middleware headers; any other request is
delegated, the wrapped handler header values win per key, and the
middleware values fill only the keys the handler leaves unset. -/
def WithCORSHeaderSemantics (inner : Request → HttpResponse)
    (req : Request) : Prop :=
  (req.method = .OPTIONS →
    (withCORS inner req).headers = withCORSHeaders) ∧
  (req.method ≠ .OPTIONS →
    FallbackLookup (withCORS inner req).headers (inner req).headers
      withCORSHeaders)

-- ========================================
-- Concrete inputs for witnesses and counterexamples
-- ========================================

/-- A valid POST request with truthy image and prompt, `useSDXL` omitted. -/
def reqDefault : Request := ⟨.POST, ⟨.str "img", .str "a cat", .undef, .undef⟩⟩

/-- A valid POST request explicitly selecting FLUX via `useSDXL:false`. -/
def reqFlux : Request :=
  ⟨.POST, ⟨.str "img", .str "a cat", .undef, .bool false⟩⟩

/-- A POST request with empty body: every field absent. -/
def reqEmpty : Request := ⟨.POST, ⟨.undef, .undef, .undef, .undef⟩⟩

/-- A POST request carrying `image` as the empty string: present but falsy. -/
def reqFalsyImage : Request :=
  ⟨.POST, ⟨.str "", .str "a cat", .undef, .undef⟩⟩

/-- An OPTIONS preflight request. -/
def reqOptions : Request := ⟨.OPTIONS, ⟨.undef, .undef, .undef, .undef⟩⟩

/-- Concrete collaborator outputs. -/
def collab0 : Collab :=
  ⟨⟨.str "Monet", .str "ai_selection", .str "impressionist palette"⟩,
   .str "sdxl prompt", .str "ugly, blurry", .str "flux prompt",
   .num (95/100)⟩

/-- The upstream 429 response of the spec scenario:
body `detail: slow down, retry_after: 15`. -/
def up429Slow : UpstreamResponse :=
  ⟨false, 429, .json [("detail", .str "slow down"),
                      ("retry_after", .num 15)]⟩

/-- A 429 JSON body whose `detail` is the empty string and whose
`retry_after` is 0: both present and falsy. -/
def o429Falsy : Obj := [("detail", .str ""), ("retry_after", .num 0)]

/-- The upstream 429 response carrying `o429Falsy`. -/
def up429Falsy : UpstreamResponse := ⟨false, 429, .json o429Falsy⟩

/-- An upstream 429 response whose body is not valid JSON. -/
def up429Bad : UpstreamResponse := ⟨false, 429, .malformed "Too Many Requests"⟩

/-- A two-field upstream result object. -/
def upOkData : Obj := [("id", .str "p1"), ("output", .arr [.str "url"])]

/-- A successful upstream response carrying `upOkData`. -/
def upOk : UpstreamResponse := ⟨true, 200, .json upOkData⟩

/-- A wrapped handler that always answers 200 with an empty body. -/
def innerOk : Request → HttpResponse := fun _ => ⟨200, [], .empty⟩

/-- A sample thrown error. -/
def errBoom : JsError := ⟨"boom", none, none, "stacktrace"⟩

-- ========================================
-- Lemmas
-- ========================================

lemma gateInv_init (n : Nat) : GateInv n (initGate n) := by
  left
  exact ⟨0, Nat.zero_le n, rfl, rfl, rfl⟩

lemma gateInv_step {n : Nat} {s t : GateState} (hinv : GateInv n s)
    (hstep : GateStep 1 s t) : GateInv n t := by
  cases hstep with
  | start i w r tr hlt =>
      rcases hinv with ⟨k, hk, hw, hr, htr⟩ | ⟨k, hk, hw, hr, htr⟩
      · -- idle: the head of the waiting list is task k
        dsimp only at hw hr htr
        rcases hn : n - k with _ | m
        · rw [hn] at hw; simp [rangeFrom] at hw
        · rw [hn] at hw
          simp only [rangeFrom, List.cons.injEq] at hw
          right
          refine ⟨k, by omega, ?_, ?_, ?_⟩ <;> dsimp only
          · rw [hw.2, show n - (k + 1) = m by omega]
          · rw [hr, hw.1]; rfl
          · rw [htr, hw.1]
      · -- a task is already running: the length bound forbids a start
        dsimp only at hr
        rw [hr] at hlt; simp at hlt
  | finish i w r tr hmem =>
      rcases hinv with ⟨k, hk, hw, hr, htr⟩ | ⟨k, hk, hw, hr, htr⟩
      · dsimp only at hr
        rw [hr] at hmem; simp at hmem
      · dsimp only at hw hr htr
        rw [hr] at hmem
        simp only [List.mem_singleton] at hmem
        left
        refine ⟨k + 1, by omega, ?_, ?_, ?_⟩ <;> dsimp only
        · rw [hw]
        · rw [hr, hmem]; simp [List.erase]
        · rw [htr, hmem]; simp [doneTrace]

lemma gateInv_reach {n : Nat} {s : GateState}
    (h : GateReach 1 (initGate n) s) : GateInv n s := by
  induction h with
  | refl => exact gateInv_init n
  | tail _ hstep ih => exact gateInv_step ih hstep

lemma start_mem_doneTrace {i k : Nat} :
    GateEvent.start i ∈ doneTrace k ↔ i < k := by
  induction k with
  | zero => simp [doneTrace]
  | succ k ih => simp [doneTrace, ih]; omega

lemma finish_mem_doneTrace {i k : Nat} :
    GateEvent.finish i ∈ doneTrace k ↔ i < k := by
  induction k with
  | zero => simp [doneTrace]
  | succ k ih => simp [doneTrace, ih]; omega

lemma doneTrace_decomp {j k : Nat} (h : j < k) :
    ∃ rest, doneTrace k = doneTrace j ++ GateEvent.start j :: rest := by
  induction k with
  | zero => omega
  | succ k ih =>
      rcases Nat.lt_succ_iff_lt_or_eq.mp h with h' | h'
      · obtain ⟨rest, hrest⟩ := ih h'
        exact ⟨rest ++ [GateEvent.start k, GateEvent.finish k],
          by simp [doneTrace, hrest]⟩
      · subst h'
        exact ⟨[GateEvent.finish j], by simp [doneTrace]⟩

lemma mem_doneTrace_ne_start {e : GateEvent} {k j : Nat} (hkj : k ≤ j)
    (he : e ∈ doneTrace k) : (e != GateEvent.start j) = true := by
  induction k with
  | zero => simp [doneTrace] at he
  | succ k ih =>
      simp only [doneTrace, List.mem_append] at he
      rcases he with he | he
      · exact ih (by omega) he
      · simp only [List.mem_cons, List.mem_singleton] at he
        rcases he with rfl | rfl | h
        · simp [bne_iff_ne]; omega
        · simp [bne_iff_ne]
        · cases h

lemma takeWhile_prefix_of_all {l1 l2 : List GateEvent} {a : GateEvent}
    (h : ∀ x ∈ l1, (x != a) = true) :
    (l1 ++ a :: l2).takeWhile (fun e => e != a) = l1 := by
  induction l1 with
  | nil => simp [List.takeWhile]
  | cons x t ih =>
      simp only [List.cons_append, List.takeWhile]
      rw [h x (List.mem_cons_self x t)]
      simp only [List.cons.injEq, true_and]
      exact ih (fun y hy => h y (List.mem_cons_of_mem x hy))

lemma serialFifo_of_shape (k : Nat) (ext : List GateEvent)
    (hext : ext = [] ∨ ext = [GateEvent.start k]) :
    SerialFifoTrace (doneTrace k ++ ext) := by
  intro i j hij hj
  have hjk : j < k ∨ (j = k ∧ ext = [GateEvent.start k]) := by
    rcases hext with rfl | rfl
    · simp only [List.append_nil] at hj
      exact Or.inl (start_mem_doneTrace.mp hj)
    · simp only [List.mem_append, List.mem_singleton] at hj
      rcases hj with hj | hj
      · exact Or.inl (start_mem_doneTrace.mp hj)
      · exact Or.inr ⟨by cases hj; rfl, rfl⟩
  rcases hjk with hjk | ⟨rfl, rfl⟩
  · obtain ⟨rest, hrest⟩ := doneTrace_decomp hjk
    have hshape : doneTrace k ++ ext =
        doneTrace j ++ GateEvent.start j :: (rest ++ ext) := by
      simp [hrest]
    rw [hshape,
      takeWhile_prefix_of_all (fun x hx => mem_doneTrace_ne_start le_rfl hx)]
    exact ⟨start_mem_doneTrace.mpr hij, finish_mem_doneTrace.mpr hij⟩
  · have hshape : doneTrace j ++ [GateEvent.start j] =
        doneTrace j ++ GateEvent.start j :: [] := rfl
    rw [hshape,
      takeWhile_prefix_of_all (fun x hx => mem_doneTrace_ne_start le_rfl hx)]
    exact ⟨start_mem_doneTrace.mpr hij, finish_mem_doneTrace.mpr hij⟩

lemma lookupF_append_of_ne {l : List (String × JSVal)}
    (l' : List (String × JSVal)) (k : String)
    (h : ∀ kv ∈ l, kv.1 ≠ k) :
    lookupF (l ++ l') k = lookupF l' k := by
  induction l with
  | nil => rfl
  | cons kv t ih =>
      obtain ⟨k', v⟩ := kv
      simp only [List.cons_append, lookupF]
      rw [if_neg (h ⟨k', v⟩ (List.mem_cons_self _ _))]
      exact ih (fun kv' hkv' => h kv' (List.mem_cons_of_mem _ hkv'))

lemma getF_append_of_ne (data meta : Obj) (k : String)
    (h : ∀ kv ∈ meta, kv.1 ≠ k) :
    getF (data ++ meta) k = getF data k := by
  unfold getF
  rw [List.reverse_append]
  exact lookupF_append_of_ne _ k
    (fun kv hkv => h kv (List.mem_reverse.mp hkv))

lemma headerVal_append (a b : List (String × String)) (k : String) :
    headerVal (a ++ b) k =
      match headerVal a k with
      | some v => some v
      | none => headerVal b k := by
  induction a with
  | nil => rfl
  | cons kv t ih =>
      obtain ⟨k', v⟩ := kv
      by_cases hk : k' = k <;> simp [headerVal, hk, ih]

lemma mergesFive_of_response (r : HttpResponse) (data : Obj)
    (sel : ArtistSelection) (mt : String) (cost : ℚ)
    (hr : r = ⟨200, corsHeaders, .jsonObj (data ++
      [("selected_artist", sel.artist),
       ("selection_method", sel.method),
       ("selection_details", sel.details),
       ("model_used", .str mt),
       ("cost", .num cost)])⟩) :
    MergesFiveMeta r data sel mt cost := by
  subst hr
  refine ⟨rfl, ?_, ?_, ?_, ?_, ?_, ?_⟩
  · simp [respField, getF, lookupF, List.reverse_append]
  · simp [respField, getF, lookupF, List.reverse_append]
  · simp [respField, getF, lookupF, List.reverse_append]
  · simp [respField, getF, lookupF, List.reverse_append]
  · simp [respField, getF, lookupF, List.reverse_append]
  · intro k hk
    simp only [metaKeys5, List.mem_cons, List.not_mem_nil, or_false,
      not_or] at hk
    obtain ⟨h1, h2, h3, h4, h5⟩ := hk
    show getF (data ++ _) k = getF data k
    apply getF_append_of_ne
    intro kv hkv
    simp only [List.mem_cons, List.not_mem_nil, or_false] at hkv
    rcases hkv with rfl | rfl | rfl | rfl | rfl
    · exact fun hc => h1 hc.symm
    · exact fun hc => h2 hc.symm
    · exact fun hc => h3 hc.symm
    · exact fun hc => h4 hc.symm
    · exact fun hc => h5 hc.symm

lemma mergesThree_of_response (r : HttpResponse) (data : Obj)
    (sel : ArtistSelection)
    (hr : r = ⟨200, corsHeaders, .jsonObj (data ++
      [("selected_artist", sel.artist),
       ("selection_method", sel.method),
       ("selection_details", sel.details)])⟩) :
    MergesThreeMeta r data sel := by
  subst hr
  refine ⟨rfl, ?_, ?_, ?_, ?_⟩
  · simp [respField, getF, lookupF, List.reverse_append]
  · simp [respField, getF, lookupF, List.reverse_append]
  · simp [respField, getF, lookupF, List.reverse_append]
  · intro k hk
    simp only [metaKeys3, List.mem_cons, List.not_mem_nil, or_false,
      not_or] at hk
    obtain ⟨h1, h2, h3⟩ := hk
    show getF (data ++ _) k = getF data k
    apply getF_append_of_ne
    intro kv hkv
    simp only [List.mem_cons, List.not_mem_nil, or_false] at hkv
    rcases hkv with rfl | rfl | rfl
    · exact fun hc => h1 hc.symm
    · exact fun hc => h2 hc.symm
    · exact fun hc => h3 hc.symm

lemma handler_headers (req : Request) (c : Collab) (up : UpstreamResponse)
    (dev : Bool) : (handler req c up dev).response.headers = corsHeaders := by
  obtain ⟨m, b⟩ := req
  cases m with
  | OPTIONS => rfl
  | other s => rfl
  | POST =>
      dsimp only [handler]
      split
      · rfl
      · split <;> rfl

lemma refactoredHandler_headers (req : Request) (c : Collab)
    (up : UpstreamResponse) (dev : Bool) :
    (refactoredHandler req c up dev).response.headers = corsHeaders := by
  obtain ⟨m, b⟩ := req
  cases m with
  | OPTIONS => rfl
  | other s => rfl
  | POST =>
      dsimp only [refactoredHandler]
      split
      · rfl
      · split <;> rfl

lemma handler_POST_sdxl (b : ReqBody) (c : Collab) (up : UpstreamResponse)
    (dev : Bool) (hi : b.image.truthy = true) (hp : b.prompt.truthy = true)
    (hu : (useSDXLVal b).truthy = true) :
    handler ⟨.POST, b⟩ c up dev = (match callSDXLAPI_result up with
      | .ok data => ⟨⟨200, corsHeaders, .jsonObj (data ++
          [("selected_artist", c.sel.artist),
           ("selection_method", c.sel.method),
           ("selection_details", c.sel.details),
           ("model_used", .str "SDXL Lightning"),
           ("cost", .num (11/1000))])⟩,
          some (sdxlPayload b.image c.sdxlPrompt c.negPrompt)⟩
      | .error e => ⟨handlerErrorResponse e dev,
          some (sdxlPayload b.image c.sdxlPrompt c.negPrompt)⟩) := by
  dsimp only [handler]
  simp only [hi, hp, hu]
  simp

lemma handler_POST_flux (b : ReqBody) (c : Collab) (up : UpstreamResponse)
    (dev : Bool) (hi : b.image.truthy = true) (hp : b.prompt.truthy = true)
    (hu : (useSDXLVal b).truthy = false) :
    handler ⟨.POST, b⟩ c up dev = (match callFluxAPI_result up with
      | .ok data => ⟨⟨200, corsHeaders, .jsonObj (data ++
          [("selected_artist", c.sel.artist),
           ("selection_method", c.sel.method),
           ("selection_details", c.sel.details),
           ("model_used", .str "FLUX Depth"),
           ("cost", .num (4/100))])⟩,
          some (fluxPayload b.image c.fluxPrompt c.controlStrength)⟩
      | .error e => ⟨handlerErrorResponse e dev,
          some (fluxPayload b.image c.fluxPrompt c.controlStrength)⟩) := by
  dsimp only [handler]
  simp only [hi, hp, hu]
  simp

lemma refactoredHandler_POST (b : ReqBody) (c : Collab)
    (up : UpstreamResponse) (dev : Bool) (hi : b.image.truthy = true)
    (hp : b.prompt.truthy = true) :
    refactoredHandler ⟨.POST, b⟩ c up dev =
      (match callReplicateAPI_result up with
      | .ok data => ⟨⟨200, corsHeaders, .jsonObj (data ++
          [("selected_artist", c.sel.artist),
           ("selection_method", c.sel.method),
           ("selection_details", c.sel.details)])⟩,
          some (fluxPayload b.image c.fluxPrompt c.controlStrength)⟩
      | .error e => ⟨handlerErrorResponse e dev,
          some (fluxPayload b.image c.fluxPrompt c.controlStrength)⟩) := by
  dsimp only [refactoredHandler]
  simp only [hi, hp]
  simp

lemma gateReach_demo3 : GateReach 1 (initGate 3) ⟨[], [], doneTrace 3⟩ := by
  have h0 : GateReach 1 (initGate 3) ⟨[0, 1, 2], [], []⟩ := GateReach.refl _
  have h1 : GateReach 1 (initGate 3)
      ⟨[1, 2], [0], [GateEvent.start 0]⟩ :=
    GateReach.tail h0 (GateStep.start 0 [1, 2] [] [] (by decide))
  have h2 : GateReach 1 (initGate 3)
      ⟨[1, 2], [], [GateEvent.start 0, GateEvent.finish 0]⟩ :=
    GateReach.tail h1 (GateStep.finish 0 [1, 2] [0] [GateEvent.start 0]
      (by simp))
  have h3 : GateReach 1 (initGate 3)
      ⟨[2], [1], [GateEvent.start 0, GateEvent.finish 0,
                  GateEvent.start 1]⟩ :=
    GateReach.tail h2 (GateStep.start 1 [2] []
      [GateEvent.start 0, GateEvent.finish 0] (by decide))
  have h4 : GateReach 1 (initGate 3)
      ⟨[2], [], [GateEvent.start 0, GateEvent.finish 0, GateEvent.start 1,
                 GateEvent.finish 1]⟩ :=
    GateReach.tail h3 (GateStep.finish 1 [2] [1]
      [GateEvent.start 0, GateEvent.finish 0, GateEvent.start 1] (by simp))
  have h5 : GateReach 1 (initGate 3)
      ⟨[], [2], [GateEvent.start 0, GateEvent.finish 0, GateEvent.start 1,
                 GateEvent.finish 1, GateEvent.start 2]⟩ :=
    GateReach.tail h4 (GateStep.start 2 [] []
      [GateEvent.start 0, GateEvent.finish 0, GateEvent.start 1,
       GateEvent.finish 1] (by decide))
  exact GateReach.tail h5 (GateStep.finish 2 [] [2]
    [GateEvent.start 0, GateEvent.finish 0, GateEvent.start 1,
     GateEvent.finish 1, GateEvent.start 2] (by simp))

-- ========================================
-- Claims
-- ========================================

/-- Claim C1: through the admission gate at concurrency limit 1, at most
one task is in flight in any reachable state, and whenever a
later-submitted task has started, every earlier task both started and
settled strictly before that start: FIFO, as for tasks A, B, C submitted
in that order. -/
theorem c1_rateLimiter_serial_fifo (n : Nat) (s : GateState)
    (h : GateReach 1 (initGate n) s) :
    s.running.length ≤ 1 ∧ SerialFifoTrace s.trace := by
  rcases gateInv_reach h with ⟨k, hk, hw, hr, htr⟩ | ⟨k, hk, hw, hr, htr⟩
  · refine ⟨by rw [hr]; simp, ?_⟩
    rw [htr]
    have := serialFifo_of_shape k [] (Or.inl rfl)
    simpa using this
  · refine ⟨by rw [hr]; simp, ?_⟩
    rw [htr]
    exact serialFifo_of_shape k [GateEvent.start k] (Or.inr rfl)

/-- Witness for C1: the complete run of three tasks. -/
theorem c1_rateLimiter_serial_fifo_witness :
    ([] : List Nat).length ≤ 1 ∧ SerialFifoTrace (doneTrace 3) :=
  c1_rateLimiter_serial_fifo 3 ⟨[], [], doneTrace 3⟩ gateReach_demo3

/-- Claim C7: a POST request whose body lacks the image field or the prompt
field is answered 400 with the Missing required fields body naming both
required fields, and no upstream call is made. -/
theorem c7_missing_fields_400 (req : Request) (c : Collab)
    (up : UpstreamResponse) (dev : Bool) (hm : req.method = .POST)
    (h : req.body.image = .undef ∨ req.body.prompt = .undef) :
    (handler req c up dev).response.status = 400 ∧
    (handler req c up dev).response.body = .jsonObj
      [("error", .str "Missing required fields"),
       ("required", .arr [.str "image", .str "prompt"])] ∧
    (handler req c up dev).upstreamPayload = none := by
  obtain ⟨m, b⟩ := req
  dsimp only at hm h
  subst hm
  rcases h with h | h <;>
    refine ⟨?_, ?_, ?_⟩ <;> simp [handler, h, JSVal.truthy]

/-- Witness for C7: the empty request body. -/
theorem c7_missing_fields_400_witness :
    (handler reqEmpty collab0 upOk false).response.status = 400 ∧
    (handler reqEmpty collab0 upOk false).response.body = .jsonObj
      [("error", .str "Missing required fields"),
       ("required", .arr [.str "image", .str "prompt"])] ∧
    (handler reqEmpty collab0 upOk false).upstreamPayload = none :=
  c7_missing_fields_400 reqEmpty collab0 upOk false rfl (Or.inl rfl)

/-- Claim C9: validation is by truthiness, not presence: a POST whose image
or prompt is present but falsy (such as the empty string) gets exactly the
same 400 Missing required fields response, and no upstream call is made. -/
theorem c9_falsy_fields_400 (req : Request) (c : Collab)
    (up : UpstreamResponse) (dev : Bool) (hm : req.method = .POST)
    (h : req.body.image.truthy = false ∨ req.body.prompt.truthy = false) :
    (handler req c up dev).response.status = 400 ∧
    (handler req c up dev).response.body = .jsonObj
      [("error", .str "Missing required fields"),
       ("required", .arr [.str "image", .str "prompt"])] ∧
    (handler req c up dev).upstreamPayload = none := by
  obtain ⟨m, b⟩ := req
  dsimp only at hm h
  subst hm
  rcases h with h | h <;>
    refine ⟨?_, ?_, ?_⟩ <;> simp [handler, h]

/-- Witness for C9: image present as the empty string, prompt valid. -/
theorem c9_falsy_fields_400_witness :
    (handler reqFalsyImage collab0 upOk false).response.status = 400 ∧
    (handler reqFalsyImage collab0 upOk false).response.body = .jsonObj
      [("error", .str "Missing required fields"),
       ("required", .arr [.str "image", .str "prompt"])] ∧
    (handler reqFalsyImage collab0 upOk false).upstreamPayload = none :=
  c9_falsy_fields_400 reqFalsyImage collab0 upOk false rfl
    (Or.inl (by decide))

/-- Claim C2: an upstream 429 with body detail "slow down" and retry_after
15 makes the upstream call throw an error with status 429, retry_after 15
and message "slow down", and the handler answers 500 with that message as
the error field. -/
theorem c2_rate_limit_passthrough (req : Request) (c : Collab) (dev : Bool)
    (hm : req.method = .POST)
    (hi : req.body.image.truthy = true)
    (hp : req.body.prompt.truthy = true)
    (hs : req.body.useSDXL = .undef) :
    callSDXLAPI_result up429Slow = .error
      { message := "slow down", status := some 429,
        retry_after := some (.num 15), stack := "Error" } ∧
    (handler req c up429Slow dev).response.status = 500 ∧
    respField (handler req c up429Slow dev).response "error" =
      .str "slow down" := by
  obtain ⟨m, b⟩ := req
  dsimp only at hm hi hp hs
  subst hm
  have hcall : callSDXLAPI_result up429Slow = .error
      { message := "slow down", status := some 429,
        retry_after := some (.num 15), stack := "Error" } := by
    simp [callSDXLAPI_result, up429Slow, rateLimit429Error, getF, lookupF,
      JSVal.truthy, JSVal.jsString]
  have hu : (useSDXLVal b).truthy = true := by
    simp [useSDXLVal, hs, JSVal.truthy]
  refine ⟨hcall, ?_, ?_⟩
  · rw [handler_POST_sdxl b c up429Slow dev hi hp hu, hcall]
    rfl
  · rw [handler_POST_sdxl b c up429Slow dev hi hp hu, hcall]
    cases dev <;> rfl

/-- Witness for C2: a valid default request against the 429 upstream. -/
theorem c2_rate_limit_passthrough_witness :
    callSDXLAPI_result up429Slow = .error
      { message := "slow down", status := some 429,
        retry_after := some (.num 15), stack := "Error" } ∧
    (handler reqDefault collab0 up429Slow false).response.status = 500 ∧
    respField (handler reqDefault collab0 up429Slow false).response
      "error" = .str "slow down" :=
  c2_rate_limit_passthrough reqDefault collab0 false rfl (by decide)
    (by decide) rfl

/-- Claim C3: a valid POST with useSDXL false sends the FLUX payload with
24 inference steps and guidance 12; useSDXL true or omitted sends the SDXL
Lightning payload with 4 inference steps and guidance_scale 0. -/
theorem c3_variant_selection (req : Request) (c : Collab)
    (up : UpstreamResponse) (dev : Bool) (hm : req.method = .POST)
    (hi : req.body.image.truthy = true)
    (hp : req.body.prompt.truthy = true) :
    VariantSelection req c up dev := by
  obtain ⟨m, b⟩ := req
  dsimp only at hm hi hp
  subst hm
  refine ⟨fun hflag => ?_, fun hflag => ?_⟩
  · dsimp only at hflag
    have hu : (useSDXLVal b).truthy = false := by
      simp [useSDXLVal, hflag, JSVal.truthy]
    refine ⟨?_, rfl, rfl⟩
    rw [handler_POST_flux b c up dev hi hp hu]
    cases hres : callFluxAPI_result up <;> rfl
  · dsimp only at hflag
    have hu : (useSDXLVal b).truthy = true := by
      rcases hflag with hflag | hflag <;>
        simp [useSDXLVal, hflag, JSVal.truthy]
    refine ⟨?_, rfl, rfl⟩
    rw [handler_POST_sdxl b c up dev hi hp hu]
    cases hres : callSDXLAPI_result up <;> rfl

/-- Witness for C3: one request selecting FLUX and one omitting useSDXL. -/
theorem c3_variant_selection_witness :
    VariantSelection reqFlux collab0 upOk false ∧
    VariantSelection reqDefault collab0 upOk false :=
  ⟨c3_variant_selection reqFlux collab0 upOk false rfl (by decide)
      (by decide),
   c3_variant_selection reqDefault collab0 upOk false rfl (by decide)
      (by decide)⟩

/-- Counterexample to claim C4 as stated: a successful request through the
refactored handler (the one index.js routes) yields a 200 whose body
carries the three selection fields but neither model_used nor cost. -/
theorem c4_counterexample_refactored :
    (refactoredHandler reqDefault collab0 upOk false).response.status =
      200 ∧
    respField (refactoredHandler reqDefault collab0 upOk false).response
      "selected_artist" = .str "Monet" ∧
    respField (refactoredHandler reqDefault collab0 upOk false).response
      "model_used" = .undef ∧
    respField (refactoredHandler reqDefault collab0 upOk false).response
      "cost" = .undef :=
  ⟨rfl, rfl, rfl, rfl⟩

/-- Claim C4 amended: on every successful request the SDXL-enabled
handler merges the upstream result with all five metadata fields, the
model name and cost being those of the chosen variant (SDXL Lightning and
0.011 when useSDXL is truthy or omitted, FLUX Depth and 0.04 otherwise);
the refactored handler merges only the three selection fields; both
preserve every other upstream field. -/
theorem c4_amended_merge (req : Request) (c : Collab)
    (up : UpstreamResponse) (dev : Bool) (data : Obj)
    (hm : req.method = .POST)
    (hi : req.body.image.truthy = true)
    (hp : req.body.prompt.truthy = true)
    (hok : up.ok = true) (hb : up.body = .json data) :
    MergesFiveMeta (handler req c up dev).response data c.sel
      (if (useSDXLVal req.body).truthy then "SDXL Lightning"
       else "FLUX Depth")
      (if (useSDXLVal req.body).truthy then 11/1000 else 4/100) ∧
    MergesThreeMeta (refactoredHandler req c up dev).response data c.sel
    := by
  obtain ⟨m, b⟩ := req
  dsimp only at hm hi hp ⊢
  subst hm
  have hcall : callSDXLAPI_result up = .ok data := by
    simp [callSDXLAPI_result, hok, hb]
  have hcallF : callFluxAPI_result up = .ok data := by
    simp [callFluxAPI_result, hok, hb]
  have hcall2 : callReplicateAPI_result up = .ok data := by
    simp [callReplicateAPI_result, hok, hb]
  constructor
  · cases htr : (useSDXLVal b).truthy
    · apply mergesFive_of_response
      rw [handler_POST_flux b c up dev hi hp htr, hcallF]
      rfl
    · apply mergesFive_of_response
      rw [handler_POST_sdxl b c up dev hi hp htr, hcall]
      rfl
  · apply mergesThree_of_response
    rw [refactoredHandler_POST b c up dev hi hp, hcall2]

/-- Witness for the amended C4: one default (SDXL) request and one
useSDXL:false (FLUX) request, each with a successful upstream result. -/
theorem c4_amended_merge_witness :
    (MergesFiveMeta (handler reqDefault collab0 upOk false).response
        upOkData collab0.sel
        (if (useSDXLVal reqDefault.body).truthy then "SDXL Lightning"
         else "FLUX Depth")
        (if (useSDXLVal reqDefault.body).truthy then 11/1000 else 4/100) ∧
     MergesThreeMeta
        (refactoredHandler reqDefault collab0 upOk false).response
        upOkData collab0.sel) ∧
    (MergesFiveMeta (handler reqFlux collab0 upOk false).response
        upOkData collab0.sel
        (if (useSDXLVal reqFlux.body).truthy then "SDXL Lightning"
         else "FLUX Depth")
        (if (useSDXLVal reqFlux.body).truthy then 11/1000 else 4/100) ∧
     MergesThreeMeta
        (refactoredHandler reqFlux collab0 upOk false).response
        upOkData collab0.sel) :=
  ⟨c4_amended_merge reqDefault collab0 upOk false upOkData rfl (by decide)
      (by decide) rfl rfl,
   c4_amended_merge reqFlux collab0 upOk false upOkData rfl (by decide)
      (by decide) rfl rfl⟩

/-- Counterexample to claim C5 as stated: an exception reaching the
withErrorHandling middleware outside development mode is answered 500, but
no field of the body carries the error message. -/
theorem c5_counterexample_withErrorHandling :
    (withErrorHandling_catch errBoom false).status = 500 ∧
    bodyMentions (withErrorHandling_catch errBoom false) "boom" = false :=
  ⟨rfl, rfl⟩

/-- Claim C5 amended: the catch block shared by the handlers answers 500
with the error message always present and a stack exactly in development
mode, while the withErrorHandling middleware answers 500 with the fixed
text Internal server error and exposes message and stack only in
development mode. -/
theorem c5_amended_error_responses (e : JsError) (dev : Bool) :
    (handlerErrorResponse e dev).status = 500 ∧
    respField (handlerErrorResponse e dev) "error" = .str e.message ∧
    (respField (handlerErrorResponse e dev) "stack" ≠ .undef ↔
      dev = true) ∧
    (withErrorHandling_catch e dev).status = 500 ∧
    respField (withErrorHandling_catch e dev) "error" =
      .str "Internal server error" ∧
    (respField (withErrorHandling_catch e dev) "message" =
      .str e.message ↔ dev = true) ∧
    (respField (withErrorHandling_catch e dev) "stack" ≠ .undef ↔
      dev = true) := by
  cases dev <;>
    simp [handlerErrorResponse, withErrorHandling_catch, respField, getF,
      lookupF]

/-- Counterexample to claim C6 as stated: a response produced through the
withCORS middleware carries allowed methods GET, POST, OPTIONS, not
exactly POST and OPTIONS. -/
theorem c6_counterexample_withCORS :
    headerVal (withCORS innerOk reqOptions).headers
      "Access-Control-Allow-Methods" = some "GET, POST, OPTIONS" ∧
    ("GET, POST, OPTIONS" : String) ≠ "POST, OPTIONS" :=
  ⟨rfl, by decide⟩

/-- Claim C6 amended: every response of the SDXL-enabled handler and of
the refactored handler carries exactly the three CORS headers with methods
POST, OPTIONS; the withCORS middleware answers an OPTIONS preflight itself
with its own headers, whose allowed methods are GET, POST, OPTIONS, and on
any other request it delegates, its header values applying only to the
keys the wrapped handler leaves unset (setHeader overwrites per key, the
later, inner call winning). -/
theorem c6_amended_headers (req : Request) (c : Collab)
    (up : UpstreamResponse) (dev : Bool)
    (inner : Request → HttpResponse) :
    (handler req c up dev).response.headers = corsHeaders ∧
    (refactoredHandler req c up dev).response.headers = corsHeaders ∧
    headerVal corsHeaders "Access-Control-Allow-Origin" = some "*" ∧
    headerVal corsHeaders "Access-Control-Allow-Methods" =
      some "POST, OPTIONS" ∧
    headerVal corsHeaders "Access-Control-Allow-Headers" =
      some "Content-Type" ∧
    headerVal withCORSHeaders "Access-Control-Allow-Origin" = some "*" ∧
    headerVal withCORSHeaders "Access-Control-Allow-Methods" =
      some "GET, POST, OPTIONS" ∧
    headerVal withCORSHeaders "Access-Control-Allow-Headers" =
      some "Content-Type" ∧
    WithCORSHeaderSemantics inner req := by
  refine ⟨handler_headers req c up dev,
    refactoredHandler_headers req c up dev, rfl, rfl, rfl, rfl, rfl, rfl,
    fun hopt => ?_, fun hnopt => ?_⟩
  · simp [withCORS, hopt]
  · have hw : (withCORS inner req).headers =
        (inner req).headers ++ withCORSHeaders := by
      simp [withCORS, hnopt]
    intro k
    rw [hw]
    exact headerVal_append (inner req).headers withCORSHeaders k

/-- Claim C8: when the parsed 429 body has a falsy retry_after (absent,
null or 0) the thrown error defaults retry_after to 10, and a falsy detail
defaults the message to Rate limited, in all three upstream call sites. -/
theorem c8_429_defaults (o : Obj) (r : UpstreamResponse)
    (hok : r.ok = false) (hst : r.status = 429) (hb : r.body = .json o) :
    Default429 callSDXLAPI_result r o ∧
    Default429 callFluxAPI_result r o ∧
    Default429 testSDXLLightning_result r o := by
  have hS : callSDXLAPI_result r = .error (rateLimit429Error o) := by
    simp [callSDXLAPI_result, hok, hst, hb]
  have hF : callFluxAPI_result r = .error (rateLimit429Error o) := by
    simp [callFluxAPI_result, hok, hst, hb]
  have hT : testSDXLLightning_result r = .error (rateLimit429Error o) := by
    simp [testSDXLLightning_result, hok, hst, hb]
  have mk : ∀ f : UpstreamResponse → Except JsError Obj,
      f r = .error (rateLimit429Error o) → Default429 f r o := by
    intro f hf
    constructor
    · intro h
      exact ⟨_, hf, by simp [rateLimit429Error, h]⟩
    · intro h
      exact ⟨_, hf, by simp [rateLimit429Error, h]⟩
  exact ⟨mk _ hS, mk _ hF, mk _ hT⟩

/-- Witness for C8: a 429 body with detail empty and retry_after 0. -/
theorem c8_429_defaults_witness :
    Default429 callSDXLAPI_result up429Falsy o429Falsy ∧
    Default429 callFluxAPI_result up429Falsy o429Falsy ∧
    Default429 testSDXLLightning_result up429Falsy o429Falsy :=
  c8_429_defaults o429Falsy up429Falsy rfl rfl rfl

/-- Claim C10: a 429 with a non-JSON body makes JSON.parse throw before
the rate-limit error is built, so the thrown error carries neither status
nor retry_after, and the 500 response shows the parse error message. -/
theorem c10_malformed_429_parse_error (s : String) (req : Request)
    (c : Collab) (dev : Bool) (r : UpstreamResponse) (hok : r.ok = false)
    (hst : r.status = 429) (hb : r.body = .malformed s)
    (hm : req.method = .POST) (hi : req.body.image.truthy = true)
    (hp : req.body.prompt.truthy = true)
    (hs : req.body.useSDXL = .undef) :
    callSDXLAPI_result r = .error (jsonParseError s) ∧
    callFluxAPI_result r = .error (jsonParseError s) ∧
    (jsonParseError s).status = none ∧
    (jsonParseError s).retry_after = none ∧
    (handler req c r dev).response.status = 500 ∧
    respField (handler req c r dev).response "error" =
      .str (jsonParseErrorMessage s) := by
  obtain ⟨m, b⟩ := req
  dsimp only at hm hi hp hs
  subst hm
  have hS : callSDXLAPI_result r = .error (jsonParseError s) := by
    simp [callSDXLAPI_result, hok, hst, hb]
  have hu : (useSDXLVal b).truthy = true := by
    simp [useSDXLVal, hs, JSVal.truthy]
  refine ⟨hS, by simp [callFluxAPI_result, hok, hst, hb], rfl, rfl, ?_, ?_⟩
  · rw [handler_POST_sdxl b c r dev hi hp hu, hS]
    rfl
  · rw [handler_POST_sdxl b c r dev hi hp hu, hS]
    cases dev <;> rfl

/-- Witness for C10: the default request against a 429 whose body is the
plain text Too Many Requests. -/
theorem c10_malformed_429_parse_error_witness :
    callSDXLAPI_result up429Bad =
      .error (jsonParseError "Too Many Requests") ∧
    callFluxAPI_result up429Bad =
      .error (jsonParseError "Too Many Requests") ∧
    (jsonParseError "Too Many Requests").status = none ∧
    (jsonParseError "Too Many Requests").retry_after = none ∧
    (handler reqDefault collab0 up429Bad false).response.status = 500 ∧
    respField (handler reqDefault collab0 up429Bad false).response
      "error" = .str (jsonParseErrorMessage "Too Many Requests") :=
  c10_malformed_429_parse_error "Too Many Requests" reqDefault collab0
    false up429Bad rfl rfl rfl rfl (by decide) (by decide) rfl

end PicoArt
